import Mathlib

/-!
Verification of the authenticated-request pipeline of the rate_tv_frontend
repository: a shallow embedding of `src/composables/useAuth.ts` and
`src/composables/useAuthApi.ts` (with `src/types/auth.ts`), together with
theorems about the token lifecycle, the single-flight refresh coordination
and the gateway request path.
-/

namespace RateTv

/-- JWT payload as decoded from the access token (`types/auth.ts`, `JwtPayload`).
`exp`/`iat` are epoch-second timestamps; `roles` and `email` may be missing
at runtime (the code defends with `|| []` and `|| ""`). -/
structure JwtPayload where
  sub : String
  exp : Int
  iat : Int
  roles : Option (List String)
  email : Option String
deriving Repr, DecidableEq

/-- Decoded user identity (`types/auth.ts`, `AuthUser`). -/
structure AuthUser where
  id : String
  roles : List String
  email : String
deriving Repr, DecidableEq

/-- Error taxonomy (`types/auth.ts`, `AuthErrorType`). -/
inductive AuthErrorType where
  | INVALID_CREDENTIALS
  | TOKEN_EXPIRED
  | REFRESH_FAILED
  | UNAUTHORIZED
deriving Repr, DecidableEq

/-- `AuthError` carries its type and a message (`types/auth.ts`). -/
structure AuthError where
  type : AuthErrorType
  message : String
deriving Repr, DecidableEq

/-- Response body of the login/refresh endpoints (`types/auth.ts`, `AuthTokens`). -/
structure AuthTokens where
  accessToken : String
  refreshToken : String
deriving Repr, DecidableEq

/-- Session state of `useAuth.ts`: the two cookie-backed tokens, the reactive
`user` singleton and the reactive `loading` flag.  `none` models a
null/undefined cookie or a null user. -/
structure Session where
  accessToken : Option String
  refreshToken : Option String
  user : Option AuthUser
  loading : Bool
deriving Repr, DecidableEq

/-- JS truthiness of a string-or-nullish value, as used by the checks
`!!accessToken.value`, `if (!refreshToken.value)`, `if (accessToken.value)`:
null/undefined and the empty string are falsy. -/
def truthyStr : Option String → Bool
  | none => false
  | some s => !(s == "")

/-- JS `m || fallback` on a possibly-missing string: nullish or empty
falls back. Models `error.message || "..."`. -/
def jsOr (m : Option String) (d : String) : String :=
  match m with
  | none => d
  | some s => if s == "" then d else s

/-- Abstraction of `jwtDecode`: a pure decoder returning the payload, or the
message of the error it throws (`InvalidTokenError`) on a malformed token. -/
abbrev Decoder := String → Except String JwtPayload

/-- Outcome of one `$fetch` call: the parsed response body, or a thrown
error carrying a possibly-absent `message`. -/
inductive FetchResult (α : Type) where
  | ok (v : α)
  | err (message : Option String)
deriving Repr, DecidableEq

/-- Body of `parseUserFromToken` after a successful decode (`useAuth.ts`,
lines 51-59): `id := payload.sub`, `roles := payload.roles || []`,
`email := payload.email || ""`. -/
def userFromPayload (p : JwtPayload) : AuthUser :=
  { id := p.sub, roles := p.roles.getD [], email := p.email.getD "" }

/-- `parseUserFromToken` (`useAuth.ts`): decodes the token and builds the
user; propagates the decoder's exception as `Except.error`. -/
def parseUserFromToken (decode : Decoder) (t : String) : Except String AuthUser :=
  (decode t).map userFromPayload

/-- `isTokenExpired` (`useAuth.ts`, lines 39-48): true when the access token
cookie is falsy; otherwise decode it and compare
`Date.now() >= payload.exp * 1000 - 10000` (10-second buffer); decode
failure is caught and yields true. -/
def isTokenExpired (decode : Decoder) (accessToken : Option String) (now_ms : Int) : Bool :=
  match accessToken with
  | none => true
  | some t =>
    if t == "" then true
    else
      match decode t with
      | .ok p => decide (now_ms ≥ p.exp * 1000 - 10000)
      | .error _ => true

/-- `isAuthenticated` (`useAuth.ts`, line 34): `!!accessToken.value && !!user.value`. -/
def isAuthenticated (s : Session) : Bool :=
  truthyStr s.accessToken && s.user.isSome

/-- Result of one session operation: the successive session states after each
mutation, in program order (`trace`), the returned value or thrown
`AuthError`, and how many network calls the operation issued. -/
structure OpResult (α : Type) where
  trace : List Session
  result : Except AuthError α
  networkCalls : Nat
deriving Repr

/-- The session state after the operation settled (last state of the trace,
or the initial state when the operation mutated nothing). -/
def OpResult.finalState (s : Session) (o : OpResult α) : Session :=
  o.trace.getLastD s

/-- The first state the operation put the session in. -/
def OpResult.startState (s : Session) (o : OpResult α) : Session :=
  o.trace.headD s

/-- `login` (`useAuth.ts`, lines 65-85).  `r` is the outcome of the
`POST /api/auth/login` call.  On success the code assigns
`accessToken.value`, then `refreshToken.value`, then
`user.value = parseUserFromToken(newAccessToken)`; a decode failure inside
the `try` is caught by the same `catch` and re-thrown as
`AuthError(INVALID_CREDENTIALS, error.message || "Invalid credentials")`;
the `finally` clears `loading`. -/
def login (decode : Decoder) (s : Session) (r : FetchResult AuthTokens) : OpResult Unit :=
  let s1 : Session := { s with loading := true }
  match r with
  | .err m =>
    let s2 := { s1 with loading := false }
    { trace := [s1, s2],
      result := .error ⟨.INVALID_CREDENTIALS, jsOr m "Invalid credentials"⟩,
      networkCalls := 1 }
  | .ok tks =>
    let s2 := { s1 with accessToken := some tks.accessToken }
    let s3 := { s2 with refreshToken := some tks.refreshToken }
    match decode tks.accessToken with
    | .ok p =>
      let s4 := { s3 with user := some (userFromPayload p) }
      let s5 := { s4 with loading := false }
      { trace := [s1, s2, s3, s4, s5], result := .ok (), networkCalls := 1 }
    | .error m =>
      let s4 := { s3 with loading := false }
      { trace := [s1, s2, s3, s4],
        result := .error ⟨.INVALID_CREDENTIALS, jsOr (some m) "Invalid credentials"⟩,
        networkCalls := 1 }

/-- `refreshAccessToken` (`useAuth.ts`, lines 90-116).  Fails immediately
when the refresh-token cookie is falsy, issuing no network call and
mutating nothing.  Otherwise `r` is the outcome of `POST /api/auth/refresh`.
On a successful response the code first assigns
`accessToken.value = newAccessToken` and only then
`user.value = parseUserFromToken(newAccessToken)`; if that decode throws,
the `catch` re-wraps it as `REFRESH_FAILED`, but the access-token
assignment has already happened.  `loading` is never touched. -/
def refreshAccessToken (decode : Decoder) (s : Session) (r : FetchResult AuthTokens) :
    OpResult String :=
  if !(truthyStr s.refreshToken) then
    { trace := [],
      result := .error ⟨.REFRESH_FAILED, "No refresh token available"⟩,
      networkCalls := 0 }
  else
    match r with
    | .err m =>
      { trace := [],
        result := .error ⟨.REFRESH_FAILED, jsOr m "Failed to refresh token"⟩,
        networkCalls := 1 }
    | .ok tks =>
      let s1 := { s with accessToken := some tks.accessToken }
      match decode tks.accessToken with
      | .ok p =>
        let s2 := { s1 with user := some (userFromPayload p) }
        { trace := [s1, s2], result := .ok tks.accessToken, networkCalls := 1 }
      | .error m =>
        { trace := [s1],
          result := .error ⟨.REFRESH_FAILED, jsOr (some m) "Failed to refresh token"⟩,
          networkCalls := 1 }

/-- `logout` (`useAuth.ts`, lines 121-140).  Sets `loading`, makes a
best-effort `POST /api/auth/logout` when a refresh token is present (its
error is logged and swallowed by the `catch`), then the `finally`
unconditionally clears access token, refresh token, user and `loading`.
The operation never throws. -/
def logout (s : Session) (r : FetchResult Unit) : OpResult Unit :=
  let s1 : Session := { s with loading := true }
  let calls := if truthyStr s1.refreshToken then 1 else 0
  let s2 := match r with
    | .ok _ => s1
    | .err _ => s1
  let s3 := { s2 with accessToken := none }
  let s4 := { s3 with refreshToken := none }
  let s5 := { s4 with user := none }
  let s6 := { s5 with loading := false }
  { trace := [s1, s3, s4, s5, s6], result := .ok (), networkCalls := calls }

/-- `initialize` (`useAuth.ts`, lines 152-170).  With an access token
present: refresh when expired, on any thrown error (including the refresh
failure) the `catch` clears all auth state; when not expired, decode the
token directly into `user`.  Errors are absorbed, the `finally` clears
`loading`. -/
def initializeAuth (decode : Decoder) (s : Session) (now_ms : Int)
    (r : FetchResult AuthTokens) : OpResult Unit :=
  let s1 : Session := { s with loading := true }
  if truthyStr s1.accessToken then
    if isTokenExpired decode s1.accessToken now_ms then
      let rr := refreshAccessToken decode s1 r
      let s2 := rr.trace.getLastD s1
      match rr.result with
      | .ok _ =>
        let s3 := { s2 with loading := false }
        { trace := s1 :: rr.trace ++ [s3], result := .ok (), networkCalls := rr.networkCalls }
      | .error _ =>
        let s3 := { s2 with accessToken := none }
        let s4 := { s3 with refreshToken := none }
        let s5 := { s4 with user := none }
        let s6 := { s5 with loading := false }
        { trace := s1 :: rr.trace ++ [s3, s4, s5, s6], result := .ok (),
          networkCalls := rr.networkCalls }
    else
      match s1.accessToken with
      | some t =>
        match decode t with
        | .ok p =>
          let s2 := { s1 with user := some (userFromPayload p) }
          let s3 := { s2 with loading := false }
          { trace := [s1, s2, s3], result := .ok (), networkCalls := 0 }
        | .error _ =>
          let s2 := { s1 with accessToken := none }
          let s3 := { s2 with refreshToken := none }
          let s4 := { s3 with user := none }
          let s5 := { s4 with loading := false }
          { trace := [s1, s2, s3, s4, s5], result := .ok (), networkCalls := 0 }
      | none =>
        let s2 := { s1 with loading := false }
        { trace := [s1, s2], result := .ok (), networkCalls := 0 }
  else
    let s2 := { s1 with loading := false }
    { trace := [s1, s2], result := .ok (), networkCalls := 0 }

/-- `hasRole` (`useAuth.ts`, lines 145-147): `user.value?.roles.includes(role) || false`. -/
def hasRole (s : Session) (role : String) : Bool :=
  match s.user with
  | none => false
  | some u => u.roles.contains role

/-! ### Gateway fetch options (`useAuthApi.ts`, `createFetchOptions` and `request`) -/

/-- Identity of a request/response interceptor: the two handlers the gateway
installs in `createFetchOptions`, or an opaque caller-supplied handler
passed through the `options` argument. -/
inductive Handler where
  | gatewayOnRequest
  | gatewayOnResponseError
  | caller (id : Nat)
deriving Repr, DecidableEq

/-- The caller-supplied `ApiOptions` object: each field is `some` exactly
when the corresponding key is present on the options object saved by the
caller (other keys of the object are irrelevant to the claims). -/
structure CallerOptions where
  headers : Option (List (String × String))
  onRequest : Option Handler
  onResponseError : Option Handler
deriving Repr, DecidableEq

/-- The fetch-options object handed to `$fetch` (body and method are carried
separately by `request` and do not interact with the hooks). -/
structure FetchOptions where
  baseURL : String
  headers : List (String × String)
  onRequest : Handler
  onResponseError : Handler
deriving Repr, DecidableEq

/-- JS object spread `{...base, ...extra}` restricted to a string map:
keys of `extra` override keys of `base`, other keys of `base` survive. -/
def mergeHeaders (base extra : List (String × String)) : List (String × String) :=
  base.filter (fun p => !(extra.any (fun q => q.1 == p.1))) ++ extra

/-- JS template-literal stringification of the access-token cookie in
`Bearer ${auth.accessToken.value}`: a nullish cookie prints as text. -/
def cookieText : Option String → String
  | none => "null"
  | some s => s

/-- `createFetchOptions` (`useAuthApi.ts`, lines 53-104).  Builds the object
literal `{ baseURL, headers, onRequest(...), onResponseError(...), ...options }`:
because `...options` is spread last, any `headers`, `onRequest` or
`onResponseError` key present on the caller options replaces the gateway's
own entry wholesale. -/
def createFetchOptions (apiBase : String) (accessToken : Option String)
    (opts : CallerOptions) : FetchOptions :=
  let baseHeaders : List (String × String) :=
    [("Authorization", "Bearer " ++ cookieText accessToken),
     ("Content-Type", "application/json")]
  let headers := mergeHeaders baseHeaders (opts.headers.getD [])
  { baseURL := apiBase
    headers := match opts.headers with | some hs => hs | none => headers
    onRequest := match opts.onRequest with | some h => h | none => .gatewayOnRequest
    onResponseError :=
      match opts.onResponseError with | some h => h | none => .gatewayOnResponseError }

/-- What a handler does when `$fetch` invokes it. -/
inductive HookEffect where
  | expiryCheckAndRefresh
  | logoutAndRedirectOn401
  | callerCode (id : Nat)
deriving Repr, DecidableEq

/-- The behavior attached to each handler identity: the gateway's
`onRequest` runs the expiry-check-and-refresh logic, its `onResponseError`
runs the 401 logout-and-redirect logic, a caller handler runs the caller's
own code. -/
def runHandler : Handler → HookEffect
  | .gatewayOnRequest => .expiryCheckAndRefresh
  | .gatewayOnResponseError => .logoutAndRedirectOn401
  | .caller k => .callerCode k

/-- Hook executions `$fetch` performs for one call made with final options
`fo`: the `onRequest` interceptor before dispatch, and the
`onResponseError` interceptor when the response is an error response. -/
def callHookEffects (fo : FetchOptions) (errorResponse : Bool) : List HookEffect :=
  [runHandler fo.onRequest] ++ (if errorResponse then [runHandler fo.onResponseError] else [])

/-- HTTP methods exposed by the authenticated gateway. -/
inductive Method where
  | get
  | post
  | put
  | delete
deriving Repr, DecidableEq

/-- Result of one gateway `request` invocation: either the synchronous
`AuthError` thrown before dispatch, or the final fetch options and method
the HTTP call was dispatched with; `networkCalls` counts the HTTP requests
this invocation itself initiated before/at dispatch. -/
structure RequestOutcome where
  result : Except AuthError (FetchOptions × Method)
  networkCalls : Nat
deriving Repr

/-- `request` (`useAuthApi.ts`, lines 109-132).  Throws
`AuthError(UNAUTHORIZED, "Authentication required")` synchronously when
`auth.isAuthenticated` is false, before building options or touching the
network; otherwise dispatches `$fetch` with the created options plus the
method (the optional JSON body is passed through unchanged and does not
affect the hooks, so it is not modelled). -/
def request (apiBase : String) (s : Session) (method : Method)
    (opts : CallerOptions) : RequestOutcome :=
  if !(isAuthenticated s) then
    { result := .error ⟨.UNAUTHORIZED, "Authentication required"⟩, networkCalls := 0 }
  else
    { result := .ok (createFetchOptions apiBase s.accessToken opts, method),
      networkCalls := 1 }

/-- Gateway wrapper `get` (`useAuthApi.ts`, returned object). -/
def gatewayGet (apiBase : String) (s : Session) (opts : CallerOptions) : RequestOutcome :=
  request apiBase s .get opts

/-- Gateway wrapper `post`. -/
def gatewayPost (apiBase : String) (s : Session) (opts : CallerOptions) : RequestOutcome :=
  request apiBase s .post opts

/-- Gateway wrapper `put`. -/
def gatewayPut (apiBase : String) (s : Session) (opts : CallerOptions) : RequestOutcome :=
  request apiBase s .put opts

/-- Gateway wrapper `delete`. -/
def gatewayDelete (apiBase : String) (s : Session) (opts : CallerOptions) : RequestOutcome :=
  request apiBase s .delete opts

/-!
### Single-flight refresh coordination (`useAuthApi.ts`, lines 9 and 67-95)

The `onRequest` hook runs on the single-threaded event loop.  For a caller
that finds `auth.isTokenExpired` true, the hook executes one synchronous
segment — read `refreshQueue`; if non-null, await it, else create the
async IIFE (which starts the refresh call), assign the resulting promise
to `refreshQueue`, and await it — with no suspension point between the
check of `refreshQueue` and its assignment.  The IIFE catches any refresh
failure (calling `auth.logout()` and `navigateTo("/signin")`), so the
shared promise always resolves; its `finally` resets `refreshQueue` to
null.  A resumed waiter synchronously rewrites its `Authorization` header
from the current cookie and returns, after which `$fetch` dispatches the
HTTP request.

The model below is a step relation over the states of `n` such callers:
each step is one uninterruptible synchronous segment of one task.
-/

/-- Outcome of the refresh network attempt backing one refresh handle. -/
inductive Outcome where
  | success
  | failure
deriving Repr, DecidableEq

/-- Observable side effects emitted by the refresh handle's `catch` path:
the (un-awaited) `auth.logout()` call and the `navigateTo("/signin")`. -/
inductive GEffect where
  | logoutCall
  | redirectSignin
deriving Repr, DecidableEq

/-- State of one gateway caller whose `onRequest` hook found the token
expired: about to run the check-and-publish segment; suspended on
`await refreshQueue` for handle `h`; or resumed, header rewritten and the
HTTP request dispatched. -/
inductive CallerState where
  | entry
  | waiting (h : Nat)
  | dispatched (h : Nat)
deriving Repr, DecidableEq

/-- Global coordination state: the callers, the published `refreshQueue`
handle (if any), how many refresh calls were ever started (handles are
numbered `0, 1, ...` in creation order), which handles settled with which
outcome, and the logout/redirect effects emitted so far. -/
structure CoordState where
  callers : List CallerState
  queue : Option Nat
  started : Nat
  settled : List (Nat × Outcome)
  effects : List GEffect
deriving Repr, DecidableEq

/-- First outcome recorded for handle `h`, if it settled. -/
def lookupH (h : Nat) : List (Nat × Outcome) → Option Outcome
  | [] => none
  | p :: ps => if p.1 = h then some p.2 else lookupH h ps

/-- Initial state: `n` expired callers, no refresh published or started. -/
def initCoord (n : Nat) : CoordState :=
  { callers := List.replicate n .entry, queue := none, started := 0,
    settled := [], effects := [] }

/-- One synchronous segment of one task:
* `awaitExisting` — a caller's hook finds `refreshQueue` non-null and
  suspends on it (`if (refreshQueue) { await refreshQueue; }`);
* `startRefresh` — a caller finds `refreshQueue` null, creates the IIFE
  (starting the refresh network call) and publishes the handle, then
  suspends on it; publication and suspension are one segment because no
  `await` separates the check from the assignment;
* `settleRefresh` — an outstanding refresh call settles; on failure the
  `catch` emits the logout call and the redirect; the `finally` resets
  `refreshQueue` to null unconditionally; the handle's promise resolves
  either way (the `catch` swallows the failure);
* `resumeCaller` — a waiter on a settled handle resumes, rewrites its
  `Authorization` header from the current cookie and returns from the
  hook, whereupon `$fetch` dispatches the HTTP request. -/
inductive Step : CoordState → CoordState → Prop where
  | awaitExisting (s : CoordState) (i h : Nat) :
      s.callers.get? i = some .entry → s.queue = some h →
      Step s { s with callers := s.callers.set i (.waiting h) }
  | startRefresh (s : CoordState) (i : Nat) :
      s.callers.get? i = some .entry → s.queue = none →
      Step s { s with
                callers := s.callers.set i (.waiting s.started),
                queue := some s.started,
                started := s.started + 1 }
  | settleRefresh (s : CoordState) (h : Nat) (o : Outcome) :
      h < s.started → lookupH h s.settled = none →
      Step s { s with
                queue := none,
                settled := s.settled ++ [(h, o)],
                effects := s.effects ++
                  (match o with
                   | .success => []
                   | .failure => [.logoutCall, .redirectSignin]) }
  | resumeCaller (s : CoordState) (i h : Nat) (o : Outcome) :
      s.callers.get? i = some (.waiting h) → lookupH h s.settled = some o →
      Step s { s with callers := s.callers.set i (.dispatched h) }

/-- Reachability from the initial state with `n` expired callers. -/
def Reachable (n : Nat) (s : CoordState) : Prop :=
  Relation.ReflTransGen Step (initCoord n) s

/-- Handle `h` names a refresh call that was started but has not settled. -/
def OutstandingH (s : CoordState) (h : Nat) : Prop :=
  h < s.started ∧ lookupH h s.settled = none

/-- The refresh handle a caller is attached to, if any. -/
def handleOf : CallerState → Option Nat
  | .entry => none
  | .waiting h => some h
  | .dispatched h => some h

/-- Inductive invariant of the refresh coordination: every settled handle
was started; the published `refreshQueue` handle is outstanding; every
outstanding refresh is the published one (publication before settlement,
and hence at most one outstanding refresh); waiters hold started handles;
a dispatched caller's handle has settled. -/
def CoordInv (s : CoordState) : Prop :=
  (∀ p ∈ s.settled, p.1 < s.started) ∧
  (∀ h, s.queue = some h → OutstandingH s h) ∧
  (∀ h, OutstandingH s h → s.queue = some h) ∧
  (∀ i h, s.callers.get? i = some (.waiting h) → h < s.started) ∧
  (∀ i h, s.callers.get? i = some (.dispatched h) → (lookupH h s.settled).isSome = true)

/-- Once every caller of a run has left `entry` while only refresh 0 was
ever started, no later step can start a second refresh: every caller stays
attached to handle 0 forever. -/
def AllOnHandleZero (s : CoordState) : Prop :=
  s.started = 1 ∧
  ∀ i c, s.callers.get? i = some c → c = .waiting 0 ∨ c = .dispatched 0

/-- Two-caller state in which caller 0 has started and published refresh
handle 0 and caller 1 has attached to it; the refresh has not settled. -/
def cWitness : CoordState :=
  { callers := [.waiting 0, .waiting 0], queue := some 0, started := 1,
    settled := [], effects := [] }

/-- One-caller run, after the single refresh was started and published. -/
def c2state1 : CoordState :=
  { callers := [.waiting 0], queue := some 0, started := 1, settled := [], effects := [] }

/-- ... after that refresh settled with failure: the catch emitted the
logout call and the redirect and the queue was cleared. -/
def c2state2 : CoordState :=
  { callers := [.waiting 0], queue := none, started := 1, settled := [(0, .failure)],
    effects := [.logoutCall, .redirectSignin] }

/-- ... after the waiter resumed: header rewritten, HTTP request dispatched,
although the refresh had failed. -/
def c2state3 : CoordState :=
  { callers := [.dispatched 0], queue := none, started := 1, settled := [(0, .failure)],
    effects := [.logoutCall, .redirectSignin] }

/-! ### Concrete values for witnesses and counterexamples -/

/-- Whether the decoder accepts a token. -/
def decodeOk (decode : Decoder) (t : String) : Bool :=
  match decode t with
  | .ok _ => true
  | .error _ => false

/-- A sample decoded payload. -/
def payload0 : JwtPayload :=
  { sub := "user-1", exp := 1700000000, iat := 1699990000,
    roles := some ["admin"], email := some "user1@example.com" }

/-- A concrete decoder: accepts exactly the token "good" (with payload
`payload0`) and throws on every other string, as `jwtDecode` does on a
malformed token. -/
def decode0 : Decoder := fun t =>
  if t == "good" then .ok payload0 else .error "Invalid token specified"

/-- A logged-in session holding the decodable access token "good". -/
def sessionLoggedIn : Session :=
  { accessToken := some "good", refreshToken := some "rt",
    user := some (userFromPayload payload0), loading := false }

/-- The empty session at process start. -/
def sessionEmpty : Session :=
  { accessToken := none, refreshToken := none, user := none, loading := false }

/-- Caller options carrying no overriding keys. -/
def noOpts : CallerOptions := { headers := none, onRequest := none, onResponseError := none }

/-- Caller options overriding both interceptors with caller handlers. -/
def hookOpts : CallerOptions :=
  { headers := none, onRequest := some (.caller 7), onResponseError := some (.caller 8) }

/-- The spec §3 session invariant, read over a fixed decoder: the user is
present iff the access token is present and decodes successfully. -/
def SessionInv (decode : Decoder) (s : Session) : Prop :=
  s.user.isSome = true ↔ ∃ t, s.accessToken = some t ∧ decodeOk decode t = true


/-! ### List helper lemmas -/

theorem get?_set_subset (l : List α) (i j : Nat) (a b : α)
    (h : (l.set i a).get? j = some b) : b = a ∨ l.get? j = some b := by
  rw [List.get?_eq_getElem?, List.getElem?_set'] at h
  by_cases hij : i = j
  · rw [if_pos hij] at h
    cases hl : l[j]? with
    | none => rw [hl] at h; simp at h
    | some c =>
      rw [hl] at h
      simp only [Option.map_eq_map, Option.map_some'] at h
      exact Or.inl (Option.some.inj h).symm
  · rw [if_neg hij] at h
    exact Or.inr (by rw [List.get?_eq_getElem?]; exact h)

theorem get?_set_self_of_some (l : List α) (i : Nat) (a b : α) (h : l.get? i = some b) :
    (l.set i a).get? i = some a := by
  rw [List.get?_eq_getElem?] at h ⊢
  rw [List.getElem?_set', if_pos rfl, h]
  rfl

theorem lookupH_append_some (h : Nat) (l l' : List (Nat × Outcome)) (o : Outcome)
    (hl : lookupH h l = some o) : lookupH h (l ++ l') = some o := by
  induction l with
  | nil => simp [lookupH] at hl
  | cons p ps ih =>
    by_cases hp : p.1 = h
    · simp only [lookupH, hp, if_pos] at hl
      simp only [List.cons_append, lookupH, hp, if_pos]
      exact hl
    · simp only [lookupH, hp, if_neg, ite_false] at hl
      simp only [List.cons_append, lookupH, hp, ite_false]
      exact ih hl

theorem lookupH_append_left_none (h : Nat) (l l' : List (Nat × Outcome))
    (hl : lookupH h l = none) : lookupH h (l ++ l') = lookupH h l' := by
  induction l with
  | nil => simp
  | cons p ps ih =>
    by_cases hp : p.1 = h
    · simp only [lookupH, hp, if_pos] at hl; exact absurd hl (by simp)
    · simp only [lookupH, hp, ite_false] at hl
      simp only [List.cons_append, lookupH, hp, ite_false]
      exact ih hl

theorem lookupH_append_none (h : Nat) (l l' : List (Nat × Outcome))
    (hl : lookupH h (l ++ l') = none) : lookupH h l = none := by
  cases hc : lookupH h l with
  | none => rfl
  | some o => rw [lookupH_append_some h l l' o hc] at hl; exact absurd hl (by simp)

theorem lookupH_none_of_keys_lt (n : Nat) (l : List (Nat × Outcome))
    (hk : ∀ p ∈ l, p.1 < n) : lookupH n l = none := by
  induction l with
  | nil => rfl
  | cons p ps ih =>
    have h1 : p.1 < n := hk p (by simp)
    have h2 : p.1 ≠ n := Nat.ne_of_lt h1
    simp only [lookupH, h2, ite_false]
    exact ih fun q hq => hk q (by simp [hq])

/-! ### The coordination invariant -/

theorem coordInv_init (n : Nat) : CoordInv (initCoord n) := by
  refine ⟨?_, ?_, ?_, ?_, ?_⟩
  · intro p hp; simp [initCoord] at hp
  · intro h hq; simp [initCoord] at hq
  · intro h ho; exact absurd ho.1 (by simp [initCoord, OutstandingH])
  · intro i h hc
    have hm := List.get?_mem hc
    simp [initCoord, List.mem_replicate] at hm
  · intro i h hc
    have hm := List.get?_mem hc
    simp [initCoord, List.mem_replicate] at hm

theorem coordInv_step {s s' : CoordState} (hs : CoordInv s) (hst : Step s s') :
    CoordInv s' := by
  obtain ⟨h1, h2, h3, h4, h5⟩ := hs
  cases hst with
  | awaitExisting i h hent hq =>
    refine ⟨h1, h2, h3, ?_, ?_⟩
    · intro j h' hc
      rcases get?_set_subset _ _ _ _ _ hc with heq | hpre
      · cases heq
        exact (h2 h hq).1
      · exact h4 j h' hpre
    · intro j h' hc
      rcases get?_set_subset _ _ _ _ _ hc with heq | hpre
      · exact absurd heq (by simp)
      · exact h5 j h' hpre
  | startRefresh i hent hq =>
    refine ⟨?_, ?_, ?_, ?_, ?_⟩
    · intro p hp; exact Nat.lt_succ_of_lt (h1 p hp)
    · intro h' hq'
      have hh : h' = s.started := by
        simpa using hq'.symm
      subst hh
      exact ⟨Nat.lt_succ_self _, lookupH_none_of_keys_lt _ _ h1⟩
    · intro h' ho
      rcases Nat.lt_succ_iff_lt_or_eq.mp ho.1 with hlt | heq
      · exact absurd (h3 h' ⟨hlt, ho.2⟩) (by simp [hq])
      · simp [heq]
    · intro j h' hc
      rcases get?_set_subset _ _ _ _ _ hc with heq | hpre
      · cases heq; exact Nat.lt_succ_self _
      · exact Nat.lt_succ_of_lt (h4 j h' hpre)
    · intro j h' hc
      rcases get?_set_subset _ _ _ _ _ hc with heq | hpre
      · exact absurd heq (by simp)
      · exact h5 j h' hpre
  | settleRefresh h o hlt hnone =>
    refine ⟨?_, ?_, ?_, ?_, ?_⟩
    · intro p hp
      rcases List.mem_append.mp hp with hpre | hnew
      · exact h1 p hpre
      · have : p = (h, o) := by simpa using hnew
        subst this; exact hlt
    · intro h' hq'; exact absurd hq' (by simp)
    · intro h' ho
      exfalso
      have ho2 : lookupH h' (s.settled ++ [(h, o)]) = none := ho.2
      have hln : lookupH h' s.settled = none := lookupH_append_none _ _ _ ho2
      have hne : h' ≠ h := by
        intro hcontra
        subst hcontra
        rw [lookupH_append_left_none _ _ _ hln] at ho2
        simp [lookupH] at ho2
      have hq1 := h3 h' ⟨ho.1, hln⟩
      have hq2 := h3 h ⟨hlt, hnone⟩
      rw [hq1] at hq2
      exact hne (Option.some.inj hq2)
    · intro j h' hc; exact h4 j h' hc
    · intro j h' hc
      cases hl : lookupH h' s.settled with
      | some o' => simp [lookupH_append_some _ _ _ _ hl]
      | none =>
        have := h5 j h' hc
        rw [hl] at this
        exact absurd this (by simp)
  | resumeCaller i h o hw hsett =>
    refine ⟨h1, h2, h3, ?_, ?_⟩
    · intro j h' hc
      rcases get?_set_subset _ _ _ _ _ hc with heq | hpre
      · exact absurd heq (by simp)
      · exact h4 j h' hpre
    · intro j h' hc
      rcases get?_set_subset _ _ _ _ _ hc with heq | hpre
      · have hh : h' = h := by
          cases heq; rfl
        subst hh
        simp [hsett]
      · exact h5 j h' hpre

theorem coordInv_reachable {n : Nat} {s : CoordState} (hr : Reachable n s) :
    CoordInv s := by
  induction hr with
  | refl => exact coordInv_init n
  | tail _ hbc ih => exact coordInv_step ih hbc

theorem reachable_callers_length {n : Nat} {s : CoordState} (hr : Reachable n s) :
    s.callers.length = n := by
  induction hr with
  | refl => simp [initCoord]
  | tail _ hbc ih =>
    cases hbc with
    | awaitExisting i h hent hq => simpa using ih
    | startRefresh i hent hq => simpa using ih
    | settleRefresh h o hlt hnone => simpa using ih
    | resumeCaller i h o hw hsett => simpa using ih

theorem allOnHandleZero_step {s s' : CoordState} (hJ : AllOnHandleZero s)
    (hst : Step s s') : AllOnHandleZero s' := by
  obtain ⟨hst1, hall⟩ := hJ
  cases hst with
  | awaitExisting i h hent hq =>
    rcases hall i _ hent with hcontra | hcontra <;> exact absurd hcontra (by simp)
  | startRefresh i hent hq =>
    rcases hall i _ hent with hcontra | hcontra <;> exact absurd hcontra (by simp)
  | settleRefresh h o hlt hnone => exact ⟨hst1, hall⟩
  | resumeCaller i h o hw hsett =>
    refine ⟨hst1, ?_⟩
    intro j c hc
    rcases get?_set_subset _ _ _ _ _ hc with heq | hpre
    · have h0 : h = 0 := by
        rcases hall i _ hw with hw0 | hw0
        · exact CallerState.waiting.inj hw0
        · exact absurd hw0 (by simp)
      subst h0
      exact Or.inr heq
    · exact hall j c hpre

theorem allOnHandleZero_steps {s s' : CoordState} (hJ : AllOnHandleZero s)
    (hst : Relation.ReflTransGen Step s s') : AllOnHandleZero s' := by
  induction hst with
  | refl => exact hJ
  | tail _ hbc ih => exact allOnHandleZero_step ih hbc

theorem cWitness_reachable : Reachable 2 cWitness := by
  refine Relation.ReflTransGen.head (Step.startRefresh (initCoord 2) 0 rfl rfl) ?_
  refine Relation.ReflTransGen.head
    (Step.awaitExisting
      { callers := [.waiting 0, .entry], queue := some 0, started := 1,
        settled := [], effects := [] } 1 0 rfl rfl) ?_
  exact Relation.ReflTransGen.refl

/-- Claim C1: in every reachable state of the refresh coordination, at most
one refresh call is outstanding; while a refresh is outstanding its handle
is the published `refreshQueue` (published before it settles); any step
that settles a refresh clears `refreshQueue`; and once every one of the
N ≥ 1 concurrent callers has run its check while no refresh has settled,
exactly one refresh call was started and every caller is attached to that
single handle 0 in all subsequent states, so all observe its one outcome. -/
theorem C1_single_flight (n : Nat) (s : CoordState) (hr : Reachable n s) :
    (∀ h₁ h₂, OutstandingH s h₁ → OutstandingH s h₂ → h₁ = h₂) ∧
    (∀ h, OutstandingH s h → s.queue = some h) ∧
    (∀ s₂, Step s s₂ → (∃ h o, s₂.settled = s.settled ++ [(h, o)]) → s₂.queue = none) ∧
    (1 ≤ n → s.settled = [] → (∀ i c, s.callers.get? i = some c → c ≠ .entry) →
      ∀ s₂, Relation.ReflTransGen Step s s₂ →
        s₂.started = 1 ∧ ∀ i c, s₂.callers.get? i = some c → handleOf c = some 0) := by
  obtain ⟨h1, h2, h3, h4, h5⟩ := coordInv_reachable hr
  refine ⟨?_, h3, ?_, ?_⟩
  · intro a b oa ob
    have qa := h3 a oa
    have qb := h3 b ob
    rw [qa] at qb
    exact Option.some.inj qb
  · intro s₂ hst hex
    cases hst with
    | awaitExisting i h hent hq =>
      obtain ⟨h', o', hset⟩ := hex
      exact absurd hset (by simp)
    | startRefresh i hent hq =>
      obtain ⟨h', o', hset⟩ := hex
      exact absurd hset (by simp)
    | settleRefresh h o hlt hnone => rfl
    | resumeCaller i h o hw hsett =>
      obtain ⟨h', o', hset⟩ := hex
      exact absurd hset (by simp)
  · intro hn hempty hnoentry s₂ hsteps
    have hlen : s.callers.length = n := reachable_callers_length hr
    obtain ⟨c0, hc0⟩ : ∃ c, s.callers.get? 0 = some c := by
      cases hc : s.callers.get? 0 with
      | none =>
        have := List.get?_eq_none.mp hc
        omega
      | some c => exact ⟨c, rfl⟩
    have hstarted : s.started = 1 := by
      have hge : 1 ≤ s.started := by
        cases c0 with
        | entry => exact absurd rfl (hnoentry 0 _ hc0)
        | waiting h =>
          have := h4 0 h hc0
          omega
        | dispatched h =>
          have := h5 0 h hc0
          rw [hempty] at this
          simp [lookupH] at this
      have hle : s.started ≤ 1 := by
        by_contra hgt
        push_neg at hgt
        have o0 : OutstandingH s 0 := ⟨by omega, by rw [hempty]; rfl⟩
        have o1 : OutstandingH s 1 := ⟨by omega, by rw [hempty]; rfl⟩
        have q0 := h3 0 o0
        have q1 := h3 1 o1
        rw [q0] at q1
        exact absurd (Option.some.inj q1) (by omega)
      omega
    have hJ : AllOnHandleZero s := by
      refine ⟨hstarted, ?_⟩
      intro i c hc
      cases c with
      | entry => exact absurd rfl (hnoentry i _ hc)
      | waiting h =>
        have hhs := h4 i h hc
        rw [hstarted] at hhs
        have h0 : h = 0 := by omega
        exact Or.inl (by rw [h0])
      | dispatched h =>
        have := h5 i h hc
        rw [hempty] at this
        simp [lookupH] at this
    have hJ2 := allOnHandleZero_steps hJ hsteps
    refine ⟨hJ2.1, ?_⟩
    intro i c hc
    rcases hJ2.2 i c hc with hceq | hceq <;> rw [hceq] <;> rfl

/-- Witness for C1: the single-flight properties hold at the concrete
reachable two-caller state `cWitness`. -/
theorem C1_single_flight_witness :
    (∀ h₁ h₂, OutstandingH cWitness h₁ → OutstandingH cWitness h₂ → h₁ = h₂) ∧
    (∀ h, OutstandingH cWitness h → cWitness.queue = some h) ∧
    (∀ s₂, Step cWitness s₂ →
       (∃ h o, s₂.settled = cWitness.settled ++ [(h, o)]) → s₂.queue = none) ∧
    (1 ≤ 2 → cWitness.settled = [] →
       (∀ i c, cWitness.callers.get? i = some c → c ≠ .entry) →
      ∀ s₂, Relation.ReflTransGen Step cWitness s₂ →
        s₂.started = 1 ∧ ∀ i c, s₂.callers.get? i = some c → handleOf c = some 0) :=
  C1_single_flight 2 cWitness cWitness_reachable

theorem c2state2_reachable : Reachable 1 c2state2 := by
  refine Relation.ReflTransGen.head (Step.startRefresh (initCoord 1) 0 rfl rfl) ?_
  refine Relation.ReflTransGen.head
    (Step.settleRefresh c2state1 0 .failure (by decide) rfl) ?_
  exact Relation.ReflTransGen.refl

/-- Claim C2 counterexample: a concrete one-caller run in which the refresh
settled with failure, yet the caller reached the `dispatched` state — the
HTTP request was dispatched instead of being abandoned, because the
handle's `catch` swallows the refresh failure and the promise resolves. -/
theorem C2_counterexample :
    Reachable 1 c2state3 ∧
    lookupH 0 c2state3.settled = some .failure ∧
    c2state3.callers.get? 0 = some (.dispatched 0) := by
  refine ⟨?_, rfl, rfl⟩
  refine Relation.ReflTransGen.head (Step.startRefresh (initCoord 1) 0 rfl rfl) ?_
  refine Relation.ReflTransGen.head
    (Step.settleRefresh c2state1 0 .failure (by decide) rfl) ?_
  refine Relation.ReflTransGen.head (Step.resumeCaller c2state2 0 0 .failure rfl rfl) ?_
  exact Relation.ReflTransGen.refl

/-- Claim C2 (amended): when the shared refresh fails, the failure is not
propagated to the waiters and the request is not abandoned — the handle's
catch triggers the logout call and the redirect to the sign-in page, the
handle resolves, and every waiter on a settled handle (failed or not) can
take the step that rewrites its Authorization header and dispatches the
HTTP request. -/
theorem C2_refresh_failure_swallowed (n : Nat) (s : CoordState) (hr : Reachable n s) :
    (∀ i h o, s.callers.get? i = some (.waiting h) → lookupH h s.settled = some o →
       ∃ s₂, Step s s₂ ∧ s₂.callers.get? i = some (.dispatched h)) ∧
    (∀ h, lookupH h s.settled = some .failure →
       .logoutCall ∈ s.effects ∧ .redirectSignin ∈ s.effects) := by
  constructor
  · intro i h o hw hsett
    exact ⟨_, Step.resumeCaller s i h o hw hsett, get?_set_self_of_some _ _ _ _ hw⟩
  · induction hr with
    | refl => intro h hh; simp [initCoord, lookupH] at hh
    | tail _ hbc ih =>
      cases hbc with
      | awaitExisting i h hent hq => exact ih
      | startRefresh i hent hq => exact ih
      | resumeCaller i h o hw hsett => exact ih
      | settleRefresh h o hlt hnone =>
        intro h' hl
        cases hcase : lookupH h' _ with
        | some o'' =>
          have hup : lookupH h' (_ ++ [(h, o)]) = some o'' :=
            lookupH_append_some _ _ _ _ hcase
          rw [hup] at hl
          have ho'' : o'' = .failure := Option.some.inj hl
          subst ho''
          have hmem := ih h' hcase
          exact ⟨List.mem_append_left _ hmem.1, List.mem_append_left _ hmem.2⟩
        | none =>
          have hup := lookupH_append_left_none h' _ [(h, o)] hcase
          rw [hup] at hl
          by_cases hhh : h = h'
          · subst hhh
            simp only [lookupH, if_pos rfl] at hl
            have ho : o = .failure := Option.some.inj hl
            subst ho
            constructor <;> exact List.mem_append_right _ (by simp)
          · simp only [lookupH, hhh, ite_false] at hl
            exact absurd hl (by simp)

/-- Witness for the amended C2: at the concrete reachable state `c2state2`
(refresh 0 settled with failure), the waiter can step to `dispatched` and
the logout/redirect effects were emitted. -/
theorem C2_refresh_failure_swallowed_witness :
    (∀ i h o, c2state2.callers.get? i = some (.waiting h) →
       lookupH h c2state2.settled = some o →
       ∃ s₂, Step c2state2 s₂ ∧ s₂.callers.get? i = some (.dispatched h)) ∧
    (∀ h, lookupH h c2state2.settled = some .failure →
       .logoutCall ∈ c2state2.effects ∧ .redirectSignin ∈ c2state2.effects) :=
  C2_refresh_failure_swallowed 1 c2state2 c2state2_reachable

/-- Claim C3: isTokenExpired is true when no access token is present; for a
decodable (real, nonempty) token it is true iff `now_ms ≥ exp*1000 - 10000`
— in particular false at `now_ms = exp*1000 - 10001` and true at
`now_ms = exp*1000 - 10000` — and it is true whenever decoding fails,
without raising (the function is total). -/
theorem C3_isExpired (decode : Decoder) (now_ms : Int) :
    (∀ tok, truthyStr tok = false → isTokenExpired decode tok now_ms = true) ∧
    (∀ t p, t ≠ "" → decode t = .ok p →
       isTokenExpired decode (some t) now_ms = decide (now_ms ≥ p.exp * 1000 - 10000)) ∧
    (∀ t p, t ≠ "" → decode t = .ok p →
       isTokenExpired decode (some t) (p.exp * 1000 - 10001) = false ∧
       isTokenExpired decode (some t) (p.exp * 1000 - 10000) = true) ∧
    (∀ t m, t ≠ "" → decode t = .error m →
       isTokenExpired decode (some t) now_ms = true) := by
  refine ⟨?_, ?_, ?_, ?_⟩
  · intro tok htok
    cases tok with
    | none => rfl
    | some s =>
      have hs : s = "" := by
        simpa [truthyStr] using htok
      subst hs
      rfl
  · intro t p ht hd
    simp [isTokenExpired, ht, hd]
  · intro t p ht hd
    constructor
    · simp only [isTokenExpired, ht, if_neg, hd]
      simp only [beq_iff_eq, ht, ite_false]
      simp only [decide_eq_false_iff_not]
      omega
    · simp only [isTokenExpired, ht, hd]
      simp only [beq_iff_eq, ht, ite_false]
      simp only [decide_eq_true_eq]
      omega
  · intro t m ht hd
    simp [isTokenExpired, ht, hd]

/-- Witness for C3 at the concrete decoder `decode0`, its token "good" with
expiry `payload0.exp`, and the undecodable token "bad". -/
theorem C3_isExpired_witness :
    isTokenExpired decode0 none 0 = true ∧
    isTokenExpired decode0 (some "good") 1700000000000
        = decide ((1700000000000 : Int) ≥ payload0.exp * 1000 - 10000) ∧
    (isTokenExpired decode0 (some "good") (payload0.exp * 1000 - 10001) = false ∧
     isTokenExpired decode0 (some "good") (payload0.exp * 1000 - 10000) = true) ∧
    isTokenExpired decode0 (some "bad") 0 = true := by
  have h1 := C3_isExpired decode0 1700000000000
  have h2 := C3_isExpired decode0 0
  exact ⟨h2.1 none rfl,
         h1.2.1 "good" payload0 (by decide) (by rfl),
         h1.2.2.1 "good" payload0 (by decide) (by rfl),
         h2.2.2.2 "bad" "Invalid token specified" (by decide) (by rfl)⟩

/-- Claim C4: logout never fails observably and, whatever the outcome of
its network call, clears the access token, the refresh token and the user
before returning. -/
theorem C4_logout_always_clears (s : Session) (r : FetchResult Unit) :
    (logout s r).result = .ok () ∧
    ((logout s r).finalState s).accessToken = none ∧
    ((logout s r).finalState s).refreshToken = none ∧
    ((logout s r).finalState s).user = none := by
  cases r <;> exact ⟨rfl, rfl, rfl, rfl⟩

/-- Claim C5: with no refresh token present, refreshAccessToken fails
immediately with `RefreshFailed("No refresh token available")`, makes no
network call and mutates no state. -/
theorem C5_refresh_no_token (decode : Decoder) (s : Session) (r : FetchResult AuthTokens)
    (h : truthyStr s.refreshToken = false) :
    (refreshAccessToken decode s r).result
        = .error ⟨.REFRESH_FAILED, "No refresh token available"⟩ ∧
    (refreshAccessToken decode s r).networkCalls = 0 ∧
    (refreshAccessToken decode s r).trace = [] ∧
    (refreshAccessToken decode s r).finalState s = s := by
  simp [refreshAccessToken, h, OpResult.finalState]

/-- Witness for C5: the empty session has no refresh token; the refresh
fails as claimed with zero network calls and an empty mutation trace. -/
theorem C5_refresh_no_token_witness :
    truthyStr sessionEmpty.refreshToken = false ∧
    ((refreshAccessToken decode0 sessionEmpty (.err none)).result
        = .error ⟨.REFRESH_FAILED, "No refresh token available"⟩ ∧
     (refreshAccessToken decode0 sessionEmpty (.err none)).networkCalls = 0 ∧
     (refreshAccessToken decode0 sessionEmpty (.err none)).trace = [] ∧
     (refreshAccessToken decode0 sessionEmpty (.err none)).finalState sessionEmpty
        = sessionEmpty) :=
  ⟨rfl, C5_refresh_no_token decode0 sessionEmpty (.err none) rfl⟩

/-- Claim C6: each of the four gateway calls issued while isAuthenticated
is false fails with the Unauthorized error before any dispatch and
performs zero network calls. -/
theorem C6_unauthenticated (apiBase : String) (s : Session) (opts : CallerOptions)
    (h : isAuthenticated s = false) :
    gatewayGet apiBase s opts
        = { result := .error ⟨.UNAUTHORIZED, "Authentication required"⟩, networkCalls := 0 } ∧
    gatewayPost apiBase s opts
        = { result := .error ⟨.UNAUTHORIZED, "Authentication required"⟩, networkCalls := 0 } ∧
    gatewayPut apiBase s opts
        = { result := .error ⟨.UNAUTHORIZED, "Authentication required"⟩, networkCalls := 0 } ∧
    gatewayDelete apiBase s opts
        = { result := .error ⟨.UNAUTHORIZED, "Authentication required"⟩, networkCalls := 0 } := by
  simp [gatewayGet, gatewayPost, gatewayPut, gatewayDelete, request, h]

/-- Witness for C6 at the empty (unauthenticated) session. -/
theorem C6_unauthenticated_witness :
    isAuthenticated sessionEmpty = false ∧
    (gatewayGet "api" sessionEmpty noOpts
        = { result := .error ⟨.UNAUTHORIZED, "Authentication required"⟩, networkCalls := 0 } ∧
     gatewayPost "api" sessionEmpty noOpts
        = { result := .error ⟨.UNAUTHORIZED, "Authentication required"⟩, networkCalls := 0 } ∧
     gatewayPut "api" sessionEmpty noOpts
        = { result := .error ⟨.UNAUTHORIZED, "Authentication required"⟩, networkCalls := 0 } ∧
     gatewayDelete "api" sessionEmpty noOpts
        = { result := .error ⟨.UNAUTHORIZED, "Authentication required"⟩, networkCalls := 0 }) :=
  ⟨rfl, C6_unauthenticated "api" sessionEmpty noOpts rfl⟩

/-- Claim C7 counterexample: from the logged-in session, a refresh whose
network call succeeds but returns the undecodable token "bad" does fail
(with REFRESH_FAILED), yet the access token has been overwritten with
"bad" — it is not left exactly as it was before the call. -/
theorem C7_counterexample :
    (refreshAccessToken decode0 sessionLoggedIn (.ok ⟨"bad", "rt2"⟩)).result
        = .error ⟨.REFRESH_FAILED, "Invalid token specified"⟩ ∧
    ((refreshAccessToken decode0 sessionLoggedIn
        (.ok ⟨"bad", "rt2"⟩)).finalState sessionLoggedIn).accessToken = some "bad" ∧
    sessionLoggedIn.accessToken = some "good" :=
  ⟨rfl, rfl, rfl⟩

/-- Claim C7 (amended): with a refresh token present, a failing
refreshAccessToken always fails with REFRESH_FAILED and never changes the
refresh token; the whole session is unchanged when the network call itself
fails, but when the call succeeds and the returned access token cannot be
decoded, the access token has already been overwritten with the returned
token (the user keeps its previous value). -/
theorem C7_refresh_failure_state (decode : Decoder) (s : Session)
    (r : FetchResult AuthTokens) (hrt : truthyStr s.refreshToken = true)
    (e : AuthError) (he : (refreshAccessToken decode s r).result = .error e) :
    e.type = .REFRESH_FAILED ∧
    ((refreshAccessToken decode s r).finalState s).refreshToken = s.refreshToken ∧
    (∀ m, r = .err m → (refreshAccessToken decode s r).finalState s = s) ∧
    (∀ tks, r = .ok tks →
       ((refreshAccessToken decode s r).finalState s).accessToken = some tks.accessToken ∧
       ((refreshAccessToken decode s r).finalState s).user = s.user) := by
  cases r with
  | err m =>
    refine ⟨?_, ?_, ?_, ?_⟩
    · have : e = ⟨.REFRESH_FAILED, jsOr m "Failed to refresh token"⟩ := by
        simpa [refreshAccessToken, hrt] using he.symm
      rw [this]
    · simp [refreshAccessToken, hrt, OpResult.finalState]
    · intro m' _
      simp [refreshAccessToken, hrt, OpResult.finalState]
    · intro tks htks
      exact absurd htks (by simp)
  | ok tks =>
    cases hd : decode tks.accessToken with
    | ok p =>
      exfalso
      rw [refreshAccessToken] at he
      simp [hrt, hd] at he
    | error m =>
      refine ⟨?_, ?_, ?_, ?_⟩
      · have : e = ⟨.REFRESH_FAILED, jsOr (some m) "Failed to refresh token"⟩ := by
          rw [refreshAccessToken] at he
          simpa [hrt, hd] using he.symm
        rw [this]
      · simp [refreshAccessToken, hrt, hd, OpResult.finalState]
      · intro m' hm'
        exact absurd hm' (by simp)
      · intro tks' htks'
        have : tks' = tks := by
          simpa using htks'.symm
        subst this
        simp [refreshAccessToken, hrt, hd, OpResult.finalState]

/-- Witness for the amended C7: a failing network call from the logged-in
session leaves the session untouched and fails with REFRESH_FAILED. -/
theorem C7_refresh_failure_state_witness :
    AuthError.type ⟨.REFRESH_FAILED, "boom"⟩ = .REFRESH_FAILED ∧
    ((refreshAccessToken decode0 sessionLoggedIn
        (.err (some "boom"))).finalState sessionLoggedIn).refreshToken
      = sessionLoggedIn.refreshToken ∧
    (∀ m, (FetchResult.err (α := AuthTokens) (some "boom")) = .err m →
       (refreshAccessToken decode0 sessionLoggedIn
          (.err (some "boom"))).finalState sessionLoggedIn = sessionLoggedIn) ∧
    (∀ tks, (FetchResult.err (α := AuthTokens) (some "boom")) = .ok tks →
       ((refreshAccessToken decode0 sessionLoggedIn
           (.err (some "boom"))).finalState sessionLoggedIn).accessToken
          = some tks.accessToken ∧
       ((refreshAccessToken decode0 sessionLoggedIn
           (.err (some "boom"))).finalState sessionLoggedIn).user
          = sessionLoggedIn.user) :=
  C7_refresh_failure_state decode0 sessionLoggedIn (.err (some "boom")) rfl
    ⟨.REFRESH_FAILED, "boom"⟩ rfl

/-- Claim C9: a caller-supplied onRequest (resp. onResponseError) handler
completely replaces the gateway's handler because the caller options are
spread last, so what `$fetch` executes in that slot is the caller's code
and not the gateway's expiry-check-and-refresh (resp. 401
logout-and-redirect) hook; with both slots overridden, neither gateway
hook appears among the executed hook effects of the call. -/
theorem C9_caller_hooks_replace (apiBase : String) (tok : Option String)
    (opts : CallerOptions) :
    (∀ k, opts.onRequest = some (.caller k) →
       (createFetchOptions apiBase tok opts).onRequest = .caller k ∧
       runHandler (createFetchOptions apiBase tok opts).onRequest = .callerCode k) ∧
    (∀ k, opts.onResponseError = some (.caller k) →
       (createFetchOptions apiBase tok opts).onResponseError = .caller k ∧
       runHandler (createFetchOptions apiBase tok opts).onResponseError = .callerCode k) ∧
    (∀ k k', opts.onRequest = some (.caller k) →
       opts.onResponseError = some (.caller k') → ∀ errorResponse,
         .expiryCheckAndRefresh ∉
            callHookEffects (createFetchOptions apiBase tok opts) errorResponse ∧
         .logoutAndRedirectOn401 ∉
            callHookEffects (createFetchOptions apiBase tok opts) errorResponse) := by
  refine ⟨?_, ?_, ?_⟩
  · intro k hk
    simp [createFetchOptions, runHandler, hk]
  · intro k hk
    simp [createFetchOptions, runHandler, hk]
  · intro k k' hk hk' errorResponse
    cases errorResponse <;>
      simp [callHookEffects, createFetchOptions, runHandler, hk, hk']

/-- Witness for C9 at concrete options overriding both hooks. -/
theorem C9_caller_hooks_replace_witness :
    (∀ k, hookOpts.onRequest = some (.caller k) →
       (createFetchOptions "api" (some "good") hookOpts).onRequest = .caller k ∧
       runHandler (createFetchOptions "api" (some "good") hookOpts).onRequest
          = .callerCode k) ∧
    (∀ k, hookOpts.onResponseError = some (.caller k) →
       (createFetchOptions "api" (some "good") hookOpts).onResponseError = .caller k ∧
       runHandler (createFetchOptions "api" (some "good") hookOpts).onResponseError
          = .callerCode k) ∧
    (∀ k k', hookOpts.onRequest = some (.caller k) →
       hookOpts.onResponseError = some (.caller k') → ∀ errorResponse,
         .expiryCheckAndRefresh ∉
            callHookEffects (createFetchOptions "api" (some "good") hookOpts) errorResponse ∧
         .logoutAndRedirectOn401 ∉
            callHookEffects (createFetchOptions "api" (some "good") hookOpts) errorResponse) :=
  C9_caller_hooks_replace "api" (some "good") hookOpts

/-- Claim C8 counterexample: a login from the empty session whose network
call succeeds but returns the undecodable access token "bad" ends in a
state with the access token present and the user absent — the invariant
clause "no post-state has an access token present with user absent" fails
(the token was assigned before the user decode threw). -/
theorem C8_counterexample :
    ((login decode0 sessionEmpty (.ok ⟨"bad", "rt"⟩)).finalState sessionEmpty).accessToken
        = some "bad" ∧
    ((login decode0 sessionEmpty (.ok ⟨"bad", "rt"⟩)).finalState sessionEmpty).user = none ∧
    (login decode0 sessionEmpty (.ok ⟨"bad", "rt"⟩)).result
        = .error ⟨.INVALID_CREDENTIALS, "Invalid token specified"⟩ :=
  ⟨rfl, rfl, rfl⟩

/-- Claim C8 (amended): every session operation preserves the
user-present-iff-token-present-and-decodable invariant, provided every
access token accepted from a successful login/refresh response decodes
successfully; logout and initialize preserve it unconditionally.  (Without
the proviso, a login or refresh whose response token fails to decode
breaks it — see the counterexample.) -/
theorem C8_invariant_preservation (decode : Decoder) (s : Session) (now_ms : Int)
    (r : FetchResult AuthTokens) (ru : FetchResult Unit)
    (hInv : SessionInv decode s) :
    ((∀ tks, r = .ok tks → decodeOk decode tks.accessToken = true) →
       SessionInv decode ((login decode s r).finalState s) ∧
       SessionInv decode ((refreshAccessToken decode s r).finalState s)) ∧
    SessionInv decode ((logout s ru).finalState s) ∧
    SessionInv decode ((initializeAuth decode s now_ms r).finalState s) := by
  refine ⟨?_, ?_, ?_⟩
  · intro hok
    constructor
    · cases r with
      | err m => exact hInv
      | ok tks =>
        have hdec := hok tks rfl
        cases hd : decode tks.accessToken with
        | error m => simp [decodeOk, hd] at hdec
        | ok p =>
          simp only [login, OpResult.finalState, hd]
          simp [SessionInv, decodeOk, hd]
    · cases hrt : truthyStr s.refreshToken with
      | false =>
        simp only [refreshAccessToken, hrt, OpResult.finalState]
        exact hInv
      | true =>
        cases r with
        | err m =>
          simp only [refreshAccessToken, hrt, OpResult.finalState]
          exact hInv
        | ok tks =>
          have hdec := hok tks rfl
          cases hd : decode tks.accessToken with
          | error m => simp [decodeOk, hd] at hdec
          | ok p =>
            simp only [refreshAccessToken, hrt, hd, OpResult.finalState]
            simp [SessionInv, decodeOk, hd]
  · cases ru <;> simp [logout, OpResult.finalState, SessionInv]
  · cases hta : truthyStr s.accessToken with
    | false =>
      simp only [initializeAuth, OpResult.finalState]
      simp only [show truthyStr { s with loading := true }.accessToken = false from hta]
      simpa [SessionInv] using hInv
    | true =>
      cases hexp : isTokenExpired decode s.accessToken now_ms with
      | true =>
        cases hrt : truthyStr s.refreshToken with
        | false =>
          simp only [initializeAuth, refreshAccessToken, OpResult.finalState]
          simp only [show truthyStr { s with loading := true }.accessToken = true from hta]
          simp only [show isTokenExpired decode { s with loading := true }.accessToken now_ms
              = true from hexp]
          simp only [show truthyStr { s with loading := true }.refreshToken = false from hrt]
          simp [SessionInv]
        | true =>
          cases r with
          | err m =>
            simp only [initializeAuth, refreshAccessToken, OpResult.finalState]
            simp only [show truthyStr { s with loading := true }.accessToken = true from hta]
            simp only [show isTokenExpired decode { s with loading := true }.accessToken now_ms
                = true from hexp]
            simp only [show truthyStr { s with loading := true }.refreshToken = true from hrt]
            simp [SessionInv]
          | ok tks =>
            cases hd : decode tks.accessToken with
            | error m =>
              simp only [initializeAuth, refreshAccessToken, OpResult.finalState]
              simp only [show truthyStr { s with loading := true }.accessToken = true from hta]
              simp only [show isTokenExpired decode { s with loading := true }.accessToken now_ms
                  = true from hexp]
              simp only [show truthyStr { s with loading := true }.refreshToken = true from hrt]
              simp [SessionInv, hd]
            | ok p =>
              simp only [initializeAuth, refreshAccessToken, OpResult.finalState]
              simp only [show truthyStr { s with loading := true }.accessToken = true from hta]
              simp only [show isTokenExpired decode { s with loading := true }.accessToken now_ms
                  = true from hexp]
              simp only [show truthyStr { s with loading := true }.refreshToken = true from hrt]
              simp [SessionInv, hd, decodeOk]
      | false =>
        cases hs : s.accessToken with
        | none => simp [truthyStr, hs] at hta
        | some t =>
          cases hd : decode t with
          | ok p =>
            simp only [initializeAuth, OpResult.finalState]
            simp only [show truthyStr { s with loading := true }.accessToken = true from hta]
            simp only [show isTokenExpired decode { s with loading := true }.accessToken now_ms
                = false from hexp]
            simp only [hs]
            simp [SessionInv, hd, decodeOk, hs]
          | error m =>
            simp only [initializeAuth, OpResult.finalState]
            simp only [show truthyStr { s with loading := true }.accessToken = true from hta]
            simp only [show isTokenExpired decode { s with loading := true }.accessToken now_ms
                = false from hexp]
            simp only [hs]
            simp [SessionInv, hd]

/-- Witness for the amended C8: preservation instantiated at the concrete
logged-in session, a refresh/login response carrying the decodable token
"good", and a failing logout network call. -/
theorem C8_invariant_preservation_witness :
    ((∀ tks, (FetchResult.ok (⟨"good", "rt2"⟩ : AuthTokens)) = .ok tks →
        decodeOk decode0 tks.accessToken = true) →
       SessionInv decode0
         ((login decode0 sessionLoggedIn (.ok ⟨"good", "rt2"⟩)).finalState sessionLoggedIn) ∧
       SessionInv decode0
         ((refreshAccessToken decode0 sessionLoggedIn
             (.ok ⟨"good", "rt2"⟩)).finalState sessionLoggedIn)) ∧
    SessionInv decode0 ((logout sessionLoggedIn (.err none)).finalState sessionLoggedIn) ∧
    SessionInv decode0
      ((initializeAuth decode0 sessionLoggedIn 0
          (.ok ⟨"good", "rt2"⟩)).finalState sessionLoggedIn) :=
  C8_invariant_preservation decode0 sessionLoggedIn 0 (.ok ⟨"good", "rt2"⟩) (.err none)
    (Iff.intro (fun _ => ⟨"good", rfl, rfl⟩) (fun _ => rfl))

/-- Claim C10: login, logout and initialize each set the shared loading
flag to true as their first mutation, and the flag is false in the final
state however the operation settles (success or failure, every branch). -/
theorem C10_loading_flag (decode : Decoder) (s : Session) (now_ms : Int)
    (r : FetchResult AuthTokens) (ru : FetchResult Unit) :
    (login decode s r).startState s = { s with loading := true } ∧
    ((login decode s r).finalState s).loading = false ∧
    (logout s ru).startState s = { s with loading := true } ∧
    ((logout s ru).finalState s).loading = false ∧
    (initializeAuth decode s now_ms r).startState s = { s with loading := true } ∧
    ((initializeAuth decode s now_ms r).finalState s).loading = false := by
  refine ⟨?_, ?_, ?_, ?_, ?_, ?_⟩
  · cases r with
    | err m => rfl
    | ok tks => cases hd : decode tks.accessToken <;>
        simp only [login, OpResult.startState, hd] <;> rfl
  · cases r with
    | err m => rfl
    | ok tks => cases hd : decode tks.accessToken <;>
        simp only [login, OpResult.finalState, hd] <;> rfl
  · cases ru <;> rfl
  · cases ru <;> rfl
  · cases hta : truthyStr s.accessToken with
    | false =>
      simp only [initializeAuth, OpResult.startState]
      simp only [show truthyStr { s with loading := true }.accessToken = false from hta]
      rfl
    | true =>
      cases hexp : isTokenExpired decode s.accessToken now_ms with
      | true =>
        cases hrt : truthyStr s.refreshToken with
        | false =>
          simp only [initializeAuth, refreshAccessToken, OpResult.startState]
          simp only [show truthyStr { s with loading := true }.accessToken = true from hta]
          simp only [show isTokenExpired decode { s with loading := true }.accessToken now_ms
              = true from hexp]
          simp only [show truthyStr { s with loading := true }.refreshToken = false from hrt]
          rfl
        | true =>
          cases r with
          | err m =>
            simp only [initializeAuth, refreshAccessToken, OpResult.startState]
            simp only [show truthyStr { s with loading := true }.accessToken = true from hta]
            simp only [show isTokenExpired decode { s with loading := true }.accessToken now_ms
                = true from hexp]
            simp only [show truthyStr { s with loading := true }.refreshToken = true from hrt]
            rfl
          | ok tks =>
            cases hd : decode tks.accessToken <;>
              · simp only [initializeAuth, refreshAccessToken, OpResult.startState]
                simp only [show truthyStr { s with loading := true }.accessToken = true from hta]
                simp only [show isTokenExpired decode
                    { s with loading := true }.accessToken now_ms = true from hexp]
                simp only [show truthyStr { s with loading := true }.refreshToken = true from hrt]
                simp only [hd]
                rfl
      | false =>
        cases hs : s.accessToken with
        | none => simp [truthyStr, hs] at hta
        | some t =>
          cases hd : decode t <;>
            · simp only [initializeAuth, OpResult.startState]
              simp only [show truthyStr { s with loading := true }.accessToken = true from hta]
              simp only [show isTokenExpired decode { s with loading := true }.accessToken now_ms
                  = false from hexp]
              simp only [hs]
              simp only [hd]
              rfl
  · cases hta : truthyStr s.accessToken with
    | false =>
      simp only [initializeAuth, OpResult.finalState]
      simp only [show truthyStr { s with loading := true }.accessToken = false from hta]
      rfl
    | true =>
      cases hexp : isTokenExpired decode s.accessToken now_ms with
      | true =>
        cases hrt : truthyStr s.refreshToken with
        | false =>
          simp only [initializeAuth, refreshAccessToken, OpResult.finalState]
          simp only [show truthyStr { s with loading := true }.accessToken = true from hta]
          simp only [show isTokenExpired decode { s with loading := true }.accessToken now_ms
              = true from hexp]
          simp only [show truthyStr { s with loading := true }.refreshToken = false from hrt]
          rfl
        | true =>
          cases r with
          | err m =>
            simp only [initializeAuth, refreshAccessToken, OpResult.finalState]
            simp only [show truthyStr { s with loading := true }.accessToken = true from hta]
            simp only [show isTokenExpired decode { s with loading := true }.accessToken now_ms
                = true from hexp]
            simp only [show truthyStr { s with loading := true }.refreshToken = true from hrt]
            rfl
          | ok tks =>
            cases hd : decode tks.accessToken <;>
              · simp only [initializeAuth, refreshAccessToken, OpResult.finalState]
                simp only [show truthyStr { s with loading := true }.accessToken = true from hta]
                simp only [show isTokenExpired decode
                    { s with loading := true }.accessToken now_ms = true from hexp]
                simp only [show truthyStr { s with loading := true }.refreshToken = true from hrt]
                simp only [hd]
                rfl
      | false =>
        cases hs : s.accessToken with
        | none => simp [truthyStr, hs] at hta
        | some t =>
          cases hd : decode t <;>
            · simp only [initializeAuth, OpResult.finalState]
              simp only [show truthyStr { s with loading := true }.accessToken = true from hta]
              simp only [show isTokenExpired decode { s with loading := true }.accessToken now_ms
                  = false from hexp]
              simp only [hs]
              simp only [hd]
              rfl

end RateTv
